import Mathlib

/-!
Shallow embedding of `src/SeleniumBookScraper.py` (class `SeleniumBookScraper`).

The pipeline is pure data flow once the browser/parser effects are made
explicit, so each Python method becomes a Lean function over an `Env` that
records, per URL, what the browser session and markup parser would produce.
Exceptions that the Python code catches locally become `Option`/sum results;
the one exception path that escapes to `run`'s `try` (the markup parser
raising inside `scrape_page`, e.g. `bs4.FeatureNotFound`) is modelled by the
`Markup.parseError` constructor, which `scrape_page` turns into a
`PageStep.raised` that aborts the page loop.

Wall-clock behaviour (politeness delay, the 30 s page-load and 10 s element
waits) and the logging text itself are not modelled; where a claim is about
logging, a Boolean "was the log call reached" function mirrors the branch
structure of the source.
-/

namespace Scraper

/-- Models Python `str.strip()` on a character list: drop whitespace from
both ends. -/
def stripList (l : List Char) : List Char :=
  ((l.dropWhile Char.isWhitespace).reverse.dropWhile Char.isWhitespace).reverse

/-- Models Python `str.strip()` on strings. -/
def pyStrip (s : String) : String :=
  String.mk (stripList s.toList)

/-- Models Python `str.replace(c, '')` for a single-character pattern with an
empty replacement: every occurrence of `c` is removed. -/
def removeChar (c : Char) (s : String) : String :=
  String.mk (s.toList.filter (fun x => x ≠ c))

/-- Numeric value of a digit string (most significant first). -/
def natOfDigits (l : List Char) : Nat :=
  l.foldl (fun a c => 10 * a + (c.toNat - 48)) 0

/-- Split a character list on a separator character (like `str.split(sep)`:
the result always has one more group than there are separators). -/
def splitOnChar (sep : Char) : List Char → List (List Char)
  | [] => [[]]
  | c :: rest =>
    match splitOnChar sep rest with
    | [] => [[]]
    | g :: gs => if c = sep then [] :: g :: gs else (c :: g) :: gs

/-- A Python float holding an exact short decimal — the only numbers this
pipeline produces (prices parsed from decimal text). The value denoted is
`num / 10 ^ exp`; see `PyFloat.toRat`. -/
structure PyFloat where
  num : Int
  exp : Nat
deriving DecidableEq, Repr

/-- The rational value of a decimal float. -/
def PyFloat.toRat (p : PyFloat) : ℚ :=
  (p.num : ℚ) / 10 ^ p.exp

/-- Value of an unsigned decimal literal: digits with at most one decimal
point and at least one digit overall (`float` accepts `"5."` and `".5"`). -/
def parseUnsigned? (body : List Char) : Option PyFloat :=
  match splitOnChar '.' body with
  | [ip] =>
      if ip ≠ [] ∧ ip.all Char.isDigit then
        some ⟨(natOfDigits ip : Int), 0⟩
      else none
  | [ip, fp] =>
      if (ip ≠ [] ∨ fp ≠ []) ∧ ip.all Char.isDigit ∧ fp.all Char.isDigit then
        some ⟨((natOfDigits ip * 10 ^ fp.length + natOfDigits fp : Nat) : Int), fp.length⟩
      else none
  | _ => none

/-- Models Python `float(s)` on the string forms price text can take:
surrounding whitespace is ignored, an optional `+`/`-` sign precedes digits
with at most one decimal point. (Exponent, `inf`/`nan` and underscore forms
of `float` are not modelled; none can arise from the scraped price text.)
`none` models `float` raising `ValueError`. -/
def parseFloat? (s : String) : Option PyFloat :=
  match stripList s.toList with
  | '-' :: body => (parseUnsigned? body).map (fun p => ⟨-p.num, p.exp⟩)
  | '+' :: body => parseUnsigned? body
  | body => parseUnsigned? body

/-- `self.base_url` (line 29). -/
def base_url : String := "https://books.toscrape.com/"

/-- `self.catalogue_url` (line 30). -/
def catalogue_url : String := "https://books.toscrape.com/catalogue/"

/-- The listing page URL built in `scrape_page` (line 108):
`f"{self.catalogue_url}page-{page_num}.html"`. -/
def pageUrl (page_num : Nat) : String :=
  catalogue_url ++ "page-" ++ toString page_num ++ ".html"

/-- Models `urllib.parse.urljoin(base, rel)` for the shapes arising here:
`base` is `catalogue_url` (ends in a slash) and `rel` is either already an
absolute `http(s)` URL or a relative path without leading slash or dot
segments, which `urljoin` resolves to `base ++ rel`. -/
def urljoin (base rel : String) : String :=
  if rel.toList.take 7 = "http://".toList ∨ rel.toList.take 8 = "https://".toList then rel
  else base ++ rel

/-- The price-text sanitisation of line 126:
`raw.replace('£', '').replace('Â', '').strip()`. -/
def cleanPrice (raw : String) : String :=
  pyStrip (removeChar 'Â' (removeChar '£' raw))

/-- Line 126: `float(raw_price.replace('£', '').replace('Â', '').strip())`,
as a fallible parse. -/
def parsePrice (raw : String) : Option PyFloat :=
  parseFloat? (cleanPrice raw)

/-- The optional detail-page fields returned by `scrape_book_details`
(lines 93–99). -/
structure BookDetails where
  description : String
  upc : String
  product_type : String
  tax : String
  reviews : String
deriving DecidableEq, Repr

/-- One item record as built in `scrape_page` (lines 135–146): the five
summary fields always present, plus the detail fields when
`scrape_book_details` succeeded (the `book_data.update(book_details)`). -/
structure BookRecord where
  title : String
  price : PyFloat
  availability : String
  rating : String
  url : String
  details : Option BookDetails
deriving DecidableEq, Repr

/-- A primitive value as it appears in a record dict: the scraped fields are
strings except `price`, which is a float. -/
inductive JValue
  | str (s : String)
  | num (p : PyFloat)
deriving DecidableEq, Repr

/-- The `book_data` dict of a record, in Python insertion order: the five
summary keys (lines 135–141), then — only when the detail extraction
succeeded — the five detail keys appended by `update` (lines 143–144). -/
def BookRecord.toDict (r : BookRecord) : List (String × JValue) :=
  [("title", JValue.str r.title), ("price", JValue.num r.price),
   ("availability", JValue.str r.availability), ("rating", JValue.str r.rating),
   ("url", JValue.str r.url)] ++
  (match r.details with
   | none => []
   | some d =>
     [("description", JValue.str d.description), ("upc", JValue.str d.upc),
      ("product_type", JValue.str d.product_type), ("tax", JValue.str d.tax),
      ("reviews", JValue.str d.reviews)])

/-- One `.product_pod` item summary block, as the field accesses of
lines 124–129 see it. A `none` field models the corresponding attribute or
element being missing, which makes the Python access raise (caught by the
per-item `except` of lines 148–150). -/
structure BookBlock where
  title : Option String
  priceText : Option String
  availabilityText : Option String
  ratingClasses : Option (List String)
  href : Option String
deriving DecidableEq, Repr

/-- What `BeautifulSoup(page_source, 'lxml')` followed by
`soup.select(".product_pod")` yields for a fetched page source: either the
parser raises (escaping `scrape_page`, e.g. `bs4.FeatureNotFound` when the
`lxml` feature is unavailable) or a list of item summary blocks. -/
inductive Markup
  | parseError (msg : String)
  | doc (blocks : List BookBlock)
deriving DecidableEq, Repr

/-- Outcome of a listing-page navigation in `get_page` (lines 57–63):
`driver.get` raising, the 10 s wait for a `product_pod` element timing out
(readiness marker never appears), or the rendered page source. -/
inductive FetchOutcome
  | navError
  | timeout
  | markup (m : Markup)
deriving DecidableEq, Repr

/-- The labelled values inside the `article.product_page` container that
`scrape_book_details` reads (lines 87–91). A `none` field models the
corresponding `find` returning `None`, so the chained access raises
(caught at line 100). -/
structure ProductPage where
  descriptionContent : Option String
  upc : Option String
  productType : Option String
  tax : Option String
  reviews : Option String
deriving DecidableEq, Repr

/-- Outcome of a detail-page navigation in `scrape_book_details`
(lines 74–85): `driver.get` raising, the 10 s wait for a `product_page`
element timing out, or a loaded page whose
`soup.find('article', class_='product_page')` is the carried value
(`none` models the container being absent, line 84). -/
inductive DetailOutcome
  | navError
  | timeout
  | loaded (container : Option ProductPage)
deriving DecidableEq, Repr

/-- The external world of one run: what the browser session and parser
produce for each listing-page URL and each detail-page URL. -/
structure Env where
  fetch : String → FetchOutcome
  detail : String → DetailOutcome

/-- `get_page` (lines 51–67): any exception — navigation error or the
readiness marker never appearing — is caught, logged with the URL and cause,
and `None` is returned; on success the page source is returned. The caller
always receives a value, never a raised error. -/
def get_page (env : Env) (url : String) : Option Markup :=
  match env.fetch url with
  | .navError => none
  | .timeout => none
  | .markup m => some m

/-- `scrape_book_details` (lines 71–104): navigation errors and timeouts are
caught and give `None`; an absent `product_page` container gives `None`
(line 85, without logging); a missing labelled row or meta description makes
the chained access raise, which is caught (line 100) giving `None`; on
success the five detail fields are returned (description stripped,
line 87). -/
def scrape_book_details (env : Env) (book_url : String) : Option BookDetails :=
  match env.detail book_url with
  | .navError => none
  | .timeout => none
  | .loaded none => none
  | .loaded (some pp) =>
    match pp.descriptionContent, pp.upc, pp.productType, pp.tax, pp.reviews with
    | some d, some u, some t, some x, some r =>
        some ⟨pyStrip d, u, t, x, r⟩
    | _, _, _, _, _ => none

/-- Whether `scrape_book_details` reaches its `logging.error` call
(line 101): true exactly on the exception paths — navigation error, timeout,
or a missing field raising inside the `try`. The absent-container branch
(lines 84–85) returns without logging. -/
def scrape_book_details_logs (env : Env) (book_url : String) : Bool :=
  match env.detail book_url with
  | .navError => true
  | .timeout => true
  | .loaded none => false
  | .loaded (some pp) =>
      !(pp.descriptionContent.isSome && pp.upc.isSome && pp.productType.isSome &&
        pp.tax.isSome && pp.reviews.isSome)

/-- The per-item body of `scrape_page`'s loop (lines 122–150): extract the
summary fields (any missing field or unparseable price raises, caught by the
per-item `except`, so the item yields `none` and is skipped), resolve the
detail link, call the detail extractor, and build the record. -/
def extractBook (env : Env) (b : BookBlock) : Option BookRecord :=
  b.title.bind fun title =>
  b.priceText.bind fun rawPriceText =>
  (parsePrice (pyStrip rawPriceText)).bind fun price =>
  b.availabilityText.bind fun availText =>
  b.ratingClasses.bind fun classes =>
  classes[1]?.bind fun rating =>
  b.href.bind fun relative_link =>
  let link := urljoin catalogue_url relative_link
  some { title := title, price := price, availability := pyStrip availText,
         rating := rating, url := link, details := scrape_book_details env link }

/-- Derived helper (proof device, not in the source): the summary-only part
of `extractBook`, used to state that detail extraction never influences
whether an item is appended. -/
def extractSummary (b : BookBlock) : Option BookRecord :=
  b.title.bind fun title =>
  b.priceText.bind fun rawPriceText =>
  (parsePrice (pyStrip rawPriceText)).bind fun price =>
  b.availabilityText.bind fun availText =>
  b.ratingClasses.bind fun classes =>
  classes[1]?.bind fun rating =>
  b.href.bind fun relative_link =>
  let link := urljoin catalogue_url relative_link
  some { title := title, price := price, availability := pyStrip availText,
         rating := rating, url := link, details := none }

/-- Result of one `scrape_page(page_num)` call as seen by the page loop:
`raised` models an exception escaping `scrape_page` (the markup parser
raising, before any item of that page is appended); `stop` models
`return False` (fetch failed, lines 112–113, or zero item blocks,
lines 118–120); `cont recs` models `return True` after appending `recs`. -/
inductive PageStep
  | raised (msg : String)
  | stop
  | cont (recs : List BookRecord)
deriving DecidableEq, Repr

/-- Records appended by a page step (empty unless the page continued). -/
def PageStep.recsOf : PageStep → List BookRecord
  | .cont recs => recs
  | _ => []

/-- Whether the step returned `True`. -/
def PageStep.isCont : PageStep → Bool
  | .cont _ => true
  | _ => false

/-- Whether the step returned `False`. -/
def PageStep.isStop : PageStep → Bool
  | .stop => true
  | _ => false

/-- Whether the step raised out of `scrape_page`. -/
def PageStep.isRaised : PageStep → Bool
  | .raised _ => true
  | _ => false

/-- `scrape_page` (lines 106–152): fetch the page URL; `None` page source
returns `False`; a parser exception propagates; zero `.product_pod` blocks
logs a warning and returns `False`; otherwise each block is extracted
independently (failures skipped) and the successes are appended, returning
`True`. -/
def scrape_page_step (env : Env) (page_num : Nat) : PageStep :=
  match get_page env (pageUrl page_num) with
  | none => .stop
  | some (.parseError msg) => .raised msg
  | some (.doc books) =>
      if books.isEmpty then .stop
      else .cont (books.filterMap (extractBook env))

/-- The mutable run state threaded through the page loop: `self.all_books`,
the pages attempted so far (instrumentation for the loop's control flow),
and the pending exception if one escaped a `scrape_page` call. -/
structure ScrapeState where
  books : List BookRecord
  attempted : List Nat
  err : Option String
deriving DecidableEq, Repr

/-- The loop body of `scrape_multiple_pages` (lines 156–158) over an
explicit list of page numbers: each page is attempted in order; `False`
breaks the loop; an exception aborts it (recorded in `err`); `True` appends
the page's records and continues. -/
def scrape_pages (env : Env) : List Nat → ScrapeState → ScrapeState
  | [], st => st
  | n :: ns, st =>
    let st1 : ScrapeState := { st with attempted := st.attempted ++ [n] }
    match scrape_page_step env n with
    | .raised msg => { st1 with err := some msg }
    | .stop => st1
    | .cont recs => scrape_pages env ns { st1 with books := st1.books ++ recs }

/-- `scrape_multiple_pages(start_page, end_page)` (lines 154–158):
`for page_num in range(start_page, end_page + 1)`, starting from a fresh
result set. -/
def scrape_multiple_pages (env : Env) (start_page end_page : Nat) : ScrapeState :=
  scrape_pages env (List.range' start_page (end_page + 1 - start_page)) ⟨[], [], none⟩

/-- Models `csv.DictWriter._dict_to_list` with the constructor defaults used
at line 170 (`extrasaction='raise'`, `restval=''`): a row dict with a key
outside `fieldnames` makes the writer raise `ValueError` (`none`); otherwise
one cell per field name, missing keys filled with the empty string. -/
def dictRow? (fieldnames : List String) (d : List (String × JValue)) : Option (List JValue) :=
  if ∀ kv ∈ d, kv.1 ∈ fieldnames then
    some (fieldnames.map (fun k => (d.lookup k).getD (JValue.str "")))
  else none

/-- Models `writer.writerows(self.all_books)` (line 172): rows are converted
and written one at a time, so the rows before a `ValueError` remain written;
the Boolean records whether all rows were written (`false` models the
exception, which `save_to_csv`'s `except` then catches and logs). -/
def writeRows (fieldnames : List String) :
    List (List (String × JValue)) → List (List JValue) × Bool
  | [] => ([], true)
  | d :: ds =>
    match dictRow? fieldnames d with
    | none => ([], false)
    | some r => ((writeRows fieldnames ds).1.cons r, (writeRows fieldnames ds).2)

/-- Content of `scraped_data/books_data.csv` after `save_to_csv` returns:
`truncated` models the file having been opened with mode `"w"` (emptying it)
and then nothing written (the empty-result-set early return, lines 165–167);
`content` carries the header (the first record's keys), the data rows that
were written, and whether the row writing completed without raising. -/
inductive CsvFile
  | truncated
  | content (header : List String) (rows : List (List JValue)) (complete : Bool)
deriving DecidableEq, Repr

/-- Header of the written file (empty when nothing was written). -/
def CsvFile.headerOf : CsvFile → List String
  | .truncated => []
  | .content h _ _ => h

/-- Data rows of the written file. -/
def CsvFile.rowsOf : CsvFile → List (List JValue)
  | .truncated => []
  | .content _ r _ => r

/-- Whether the write ran to completion without an internally caught error. -/
def CsvFile.completeOf : CsvFile → Bool
  | .truncated => true
  | .content _ _ c => c

/-- `save_to_csv` (lines 160–175): the file is opened with mode `"w"`
(truncating any existing file) before the emptiness check; an empty result
set logs a warning and returns, leaving the file empty; otherwise the field
names are the first record's keys (line 169), the header is written, and the
rows are written until done or until `DictWriter` raises on a row with extra
keys (the `except` at line 174 catches and logs that). -/
def save_to_csv : List BookRecord → CsvFile
  | [] => .truncated
  | b :: bs =>
    let fieldnames := b.toDict.map Prod.fst
    let wr := writeRows fieldnames ((b :: bs).map BookRecord.toDict)
    .content fieldnames wr.1 wr.2

/-- Whether `save_to_csv` reaches its `logging.warning` call (line 166):
exactly when the result set is empty. -/
def save_to_csv_warn (books : List BookRecord) : Bool :=
  books.isEmpty

/-- The file-system transition of `save_to_csv`: whatever was previously at
the output path (`prev`) is discarded, because `open(filepath, "w")` at
line 164 truncates the file before the emptiness check runs. -/
def save_to_csv_fs (books : List BookRecord) (_prev : Option CsvFile) : Option CsvFile :=
  some (save_to_csv books)

/-- Lowercase hexadecimal digit. -/
def hexDig (n : Nat) : Char :=
  if n % 16 < 10 then Char.ofNat (48 + n % 16) else Char.ofNat (87 + n % 16)

/-- A `\uXXXX` escape (for the code points below `0x10000` that this
development ever escapes: control characters). -/
def uEsc (c : Char) : List Char :=
  ['\\', 'u', hexDig (c.toNat / 4096), hexDig (c.toNat / 256),
   hexDig (c.toNat / 16), hexDig c.toNat]

/-- Models the per-character escaping of `json.dump` for string content:
with `ensure_ascii=False` only `"`, `\` and control characters are escaped
and every other character — in particular every non-ASCII character — is
written literally; with `ensure_ascii=True` characters above `~` are
`\u`-escaped as well. -/
def escapeJsonChar (ensureAscii : Bool) (c : Char) : List Char :=
  if c = '"' then ['\\', '"']
  else if c = '\\' then ['\\', '\\']
  else if c = '\n' then ['\\', 'n']
  else if c = '\t' then ['\\', 't']
  else if c = '\r' then ['\\', 'r']
  else if c.toNat = 8 then ['\\', 'b']
  else if c.toNat = 12 then ['\\', 'f']
  else if c.toNat < 32 then uEsc c
  else if ensureAscii = true ∧ 126 < c.toNat then uEsc c
  else [c]

/-- A JSON string literal with the given escaping policy. -/
def renderJsonString (ensureAscii : Bool) (s : String) : String :=
  String.mk ('"' :: ((s.toList.map (escapeJsonChar ensureAscii)).flatten ++ ['"']))

/-- Models Python `repr` of a float that is an exact short decimal — the
only numbers this pipeline produces (prices parsed from two-decimal text);
integers render with a trailing `.0` as `repr(5.0) = "5.0"` does, and
trailing fractional zeros are dropped as `repr` does. -/
def renderNum (p : PyFloat) : String :=
  let sgn : String := if p.num < 0 then "-" else ""
  let units : Nat := p.num.natAbs
  let ip := units / 10 ^ p.exp
  let fr := units % 10 ^ p.exp
  if p.exp = 0 then sgn ++ toString ip ++ ".0"
  else
    let ds := toString fr
    let padded := String.mk (List.replicate (p.exp - ds.length) '0') ++ ds
    let trimmed := String.mk ((padded.toList.reverse.dropWhile (fun c => c = '0')).reverse)
    sgn ++ toString ip ++ "." ++ (if trimmed = "" then "0" else trimmed)

/-- Serialisation of one primitive value. -/
def renderValue (ensureAscii : Bool) : JValue → String
  | .str s => renderJsonString ensureAscii s
  | .num p => renderNum p

/-- A run of spaces. -/
def spaces (n : Nat) : String :=
  String.mk (List.replicate n ' ')

/-- One `"key": value` member at the given indentation. -/
def renderPair (ensureAscii : Bool) (ind : Nat) (kv : String × JValue) : String :=
  spaces ind ++ renderJsonString ensureAscii kv.1 ++ ": " ++ renderValue ensureAscii kv.2

/-- An indented JSON object, as `json.dump(..., indent=step)` lays it out at
indentation `ind`. -/
def renderObjI (ensureAscii : Bool) (step ind : Nat) (fields : List (String × JValue)) : String :=
  match fields with
  | [] => "\x7b\x7d"
  | _ =>
    "\x7b\n" ++ String.intercalate ",\n" (fields.map (renderPair ensureAscii (ind + step))) ++
      "\n" ++ spaces ind ++ "\x7d"

/-- The serialised document that `save_to_json` writes: the array of record
dicts together with the `indent` and `ensure_ascii` arguments of the
`json.dump` call (line 182). -/
structure JsonDoc where
  value : List (List (String × JValue))
  indent : Nat
  ensureAscii : Bool
deriving DecidableEq, Repr

/-- The text `json.dump` produces for such a document: `[]` for the empty
array, otherwise one indented object per record. -/
def renderJsonDoc (d : JsonDoc) : String :=
  match d.value with
  | [] => "[]"
  | objs =>
    "[\n" ++
      String.intercalate ",\n"
        (objs.map (fun o => spaces d.indent ++ renderObjI d.ensureAscii d.indent d.indent o)) ++
      "\n]"

/-- `save_to_json` (lines 177–185): `json.dump(self.all_books, file,
indent=4, ensure_ascii=False)` — the whole result set, every record with all
the keys it has. -/
def save_to_json (books : List BookRecord) : JsonDoc :=
  { value := books.map BookRecord.toDict, indent := 4, ensureAscii := false }

/-- The file content `save_to_json` writes. -/
def save_to_json_file (books : List BookRecord) : String :=
  renderJsonDoc (save_to_json books)

/-- Observable outcome of one `run(start_page, end_page)` call
(lines 187–202): the final result set, the pages attempted, whether each
writer was invoked and what it wrote, whether the catch-all logged a
scraping failure, and whether `driver.quit()` ran. -/
structure RunResult where
  books : List BookRecord
  attempted : List Nat
  csvInvoked : Bool
  jsonInvoked : Bool
  csvFile : Option CsvFile
  jsonFile : Option JsonDoc
  errorLogged : Bool
  driverQuit : Bool
deriving DecidableEq, Repr

/-- `run` (lines 187–202): inside the `try`, scrape the page range, then call
both writers; if an exception escaped the scraping, control jumps to the
`except` (logging the failure) and the writer calls are skipped; the
`finally` releases the browser session in every case. -/
def run (env : Env) (start_page end_page : Nat) : RunResult :=
  let st := scrape_multiple_pages env start_page end_page
  match st.err with
  | none =>
      { books := st.books, attempted := st.attempted,
        csvInvoked := true, jsonInvoked := true,
        csvFile := some (save_to_csv st.books),
        jsonFile := some (save_to_json st.books),
        errorLogged := false, driverQuit := true }
  | some _ =>
      { books := st.books, attempted := st.attempted,
        csvInvoked := false, jsonInvoked := false,
        csvFile := none, jsonFile := none,
        errorLogged := true, driverQuit := true }

/-- A well-formed item summary block (prices and fields as on the live
site). -/
def goodBlock : BookBlock :=
  { title := some "A Light in the Attic",
    priceText := some "£51.77",
    availabilityText := some "In stock",
    ratingClasses := some ["star-rating", "Three"],
    href := some "a-light-in-the-attic_1000/index.html" }

/-- A block whose price text does not parse, so its item is skipped. -/
def badBlock : BookBlock :=
  { goodBlock with priceText := some "£abc", title := some "Broken" }

/-- A block whose (syntactically valid) price text is negative. -/
def blockNeg : BookBlock :=
  { goodBlock with priceText := some "-£5.00", title := some "Negative" }

/-- The record `extractBook` produces from `goodBlock` when detail
extraction fails softly. -/
def goodRec : BookRecord :=
  { title := "A Light in the Attic", price := ⟨5177, 2⟩, availability := "In stock",
    rating := "Three", url := urljoin catalogue_url "a-light-in-the-attic_1000/index.html",
    details := none }

/-- A full set of detail fields. -/
def detailsA : BookDetails :=
  { description := "d", upc := "u1", product_type := "Books", tax := "£0.00", reviews := "0" }

/-- A record carrying only the five summary keys. -/
def recPlain : BookRecord :=
  { title := "A", price := ⟨10, 0⟩, availability := "In stock", rating := "Three",
    url := "u1", details := none }

/-- A record additionally carrying the five detail keys. -/
def recFull : BookRecord :=
  { recPlain with url := "u2", details := some detailsA }

/-- Some pre-existing CSV file content. -/
def prevCsv : CsvFile :=
  .content ["title"] [[JValue.str "old"]] true

/-- A detail-page container with every labelled row present. -/
def fullProduct : ProductPage :=
  { descriptionContent := some " desc ", upc := some "u1", productType := some "Books",
    tax := some "£0.00", reviews := some "0" }

/-- Environment: page 1 renders one good block, page 2's fetch fails by
navigation error, all detail fetches fail softly. -/
def envStop : Env :=
  { fetch := fun u => if u = pageUrl 1 then .markup (.doc [goodBlock]) else .navError,
    detail := fun _ => .navError }

/-- Environment: the markup parser raises on page 1's source. -/
def envRaise : Env :=
  { fetch := fun u =>
      if u = pageUrl 1 then .markup (.parseError "FeatureNotFound: lxml") else .navError,
    detail := fun _ => .navError }

/-- Environment: page 1 has one good and one bad block. -/
def envOneBad : Env :=
  { fetch := fun u => if u = pageUrl 1 then .markup (.doc [goodBlock, badBlock]) else .navError,
    detail := fun _ => .navError }

/-- Environment: page 1 has a single block whose extraction fails. -/
def envAllBad : Env :=
  { fetch := fun u => if u = pageUrl 1 then .markup (.doc [badBlock]) else .navError,
    detail := fun _ => .timeout }

/-- Environment whose detail pages load with a full product container for
`goodBlock`'s resolved URL, a missing container elsewhere. -/
def envDetail : Env :=
  { fetch := fun _ => .navError,
    detail := fun u =>
      if u = urljoin catalogue_url "a-light-in-the-attic_1000/index.html" then
        .loaded (some fullProduct)
      else .loaded none }

/-! ### Helper lemmas -/

/-- Stripping surrounding whitespace never introduces characters. -/
theorem mem_stripList {c : Char} {l : List Char} (h : c ∈ stripList l) : c ∈ l := by
  unfold stripList at h
  rw [List.mem_reverse] at h
  have h2 := (List.dropWhile_sublist _).subset h
  rw [List.mem_reverse] at h2
  exact (List.dropWhile_sublist _).subset h2

/-- A non-negative numerator means a non-negative decimal value. -/
theorem PyFloat.toRat_nonneg {p : PyFloat} (h : 0 ≤ p.num) : 0 ≤ p.toRat := by
  unfold PyFloat.toRat
  apply div_nonneg
  · exact_mod_cast h
  · positivity

/-- An unsigned decimal literal has a non-negative numerator. -/
theorem parseUnsigned_nonneg {body : List Char} {p : PyFloat}
    (h : parseUnsigned? body = some p) : 0 ≤ p.num := by
  unfold parseUnsigned? at h
  split at h
  · split at h
    · simp only [Option.some.injEq] at h
      subst h
      exact Int.natCast_nonneg _
    · exact absurd h (by simp)
  · split at h
    · simp only [Option.some.injEq] at h
      subst h
      exact Int.natCast_nonneg _
    · exact absurd h (by simp)
  · exact absurd h (by simp)

/-- If the text contains no minus sign, any value `float` gives it is
non-negative. -/
theorem parseFloat_nonneg {s : String} (hm : '-' ∉ s.toList) {p : PyFloat}
    (h : parseFloat? s = some p) : 0 ≤ p.toRat := by
  have hm2 : '-' ∉ stripList s.toList := fun hx => hm (mem_stripList hx)
  unfold parseFloat? at h
  split at h
  · next body heq =>
      exact absurd (heq ▸ List.mem_cons_self '-' body) hm2
  · next body heq => exact PyFloat.toRat_nonneg (parseUnsigned_nonneg h)
  · next body h1 h2 => exact PyFloat.toRat_nonneg (parseUnsigned_nonneg h)

/-- Length of a `filterMap`: the input length minus the failing inputs. -/
theorem length_filterMap_eq {α β : Type} (f : α → Option β) (l : List α) :
    (l.filterMap f).length = l.length - l.countP (fun a => (f a).isNone) := by
  induction l with
  | nil => rfl
  | cons a t ih =>
    have hle : t.countP (fun a => (f a).isNone) ≤ t.length := List.countP_le_length _
    cases hf : f a with
    | none =>
      simp [List.filterMap_cons, hf, List.countP_cons, ih]
    | some b =>
      simp [List.filterMap_cons, hf, List.countP_cons, ih]
      omega

/-- `extractBook` is the summary extraction with the detail lookup grafted
onto the record: detail extraction influences only the `details` field,
never whether the item is kept. -/
theorem extractBook_eq (env : Env) (b : BookBlock) :
    extractBook env b =
      (extractSummary b).map
        (fun r => { r with details := scrape_book_details env r.url }) := by
  rcases b with ⟨t, pr, av, rc, hf⟩
  simp only [extractBook, extractSummary]
  cases t with
  | none => rfl
  | some t =>
  simp only [Option.some_bind]
  cases pr with
  | none => rfl
  | some pr =>
  simp only [Option.some_bind]
  cases parsePrice (pyStrip pr) with
  | none => rfl
  | some q =>
  simp only [Option.some_bind]
  cases av with
  | none => rfl
  | some av =>
  simp only [Option.some_bind]
  cases rc with
  | none => rfl
  | some rc =>
  simp only [Option.some_bind]
  cases rc[1]? with
  | none => rfl
  | some rating =>
  simp only [Option.some_bind]
  cases hf with
  | none => rfl
  | some hf => rfl

/-- The row conversion succeeds exactly on dicts whose keys all lie in the
field names. -/
theorem dictRow_some {fieldnames : List String} {d : List (String × JValue)}
    (h : ∀ kv ∈ d, kv.1 ∈ fieldnames) :
    dictRow? fieldnames d =
      some (fieldnames.map (fun k => (d.lookup k).getD (JValue.str ""))) := by
  unfold dictRow?
  rw [if_pos h]

/-- When every row's keys lie in the field names, all rows are written. -/
theorem writeRows_all (fieldnames : List String) :
    ∀ ds : List (List (String × JValue)),
      (∀ d ∈ ds, ∀ kv ∈ d, kv.1 ∈ fieldnames) →
      writeRows fieldnames ds =
        (ds.map (fun d => fieldnames.map (fun k => (d.lookup k).getD (JValue.str ""))),
         true) := by
  intro ds
  induction ds with
  | nil => intro _; rfl
  | cons d t ih =>
    intro h
    have h1 := h d (List.mem_cons_self d t)
    have h2 : ∀ e ∈ t, ∀ kv ∈ e, kv.1 ∈ fieldnames :=
      fun e he => h e (List.mem_cons_of_mem _ he)
    simp [writeRows, dictRow_some h1, ih h2]

/-- A completed row write means every row's keys lay in the field names. -/
theorem writeRows_complete (fieldnames : List String) :
    ∀ ds : List (List (String × JValue)),
      (writeRows fieldnames ds).2 = true →
      ∀ d ∈ ds, ∀ kv ∈ d, kv.1 ∈ fieldnames := by
  intro ds
  induction ds with
  | nil => intro _ d hd; exact absurd hd (List.not_mem_nil d)
  | cons d t ih =>
    intro h e he
    by_cases hd : ∀ kv ∈ d, kv.1 ∈ fieldnames
    · rcases List.mem_cons.mp he with rfl | he2
      · exact hd
      · have ht : (writeRows fieldnames t).2 = true := by
          simpa [writeRows, dictRow_some hd] using h
        exact ih ht e he2
    · exfalso
      have hnone : dictRow? fieldnames d = none := by
        unfold dictRow?
        rw [if_neg hd]
      simp [writeRows, hnone] at h

/-- With `ensure_ascii=False`, characters above `~` pass through the JSON
string escaper untouched. -/
theorem escapeJsonChar_nonascii (c : Char) (h : 126 < c.toNat) :
    escapeJsonChar false c = [c] := by
  have hq : ¬ c = '"' := by intro e; rw [e] at h; exact absurd h (by decide)
  have hb : ¬ c = '\\' := by intro e; rw [e] at h; exact absurd h (by decide)
  have hn : ¬ c = '\n' := by intro e; rw [e] at h; exact absurd h (by decide)
  have ht : ¬ c = '\t' := by intro e; rw [e] at h; exact absurd h (by decide)
  have hr : ¬ c = '\r' := by intro e; rw [e] at h; exact absurd h (by decide)
  have h8 : ¬ c.toNat = 8 := by omega
  have h12 : ¬ c.toNat = 12 := by omega
  have h32 : ¬ c.toNat < 32 := by omega
  have hea : ¬ ((false = true) ∧ 126 < c.toNat) := by simp
  simp only [escapeJsonChar, if_neg hq, if_neg hb, if_neg hn, if_neg ht, if_neg hr,
    if_neg h8, if_neg h12, if_neg h32, if_neg hea]

/-- Pages already recorded as attempted stay attempted. -/
theorem scrape_pages_attempted_mono (env : Env) :
    ∀ (l : List Nat) (st : ScrapeState) (x : Nat),
      x ∈ st.attempted → x ∈ (scrape_pages env l st).attempted := by
  intro l
  induction l with
  | nil => intro st x hx; exact hx
  | cons n ns ih =>
    intro st x hx
    simp only [scrape_pages]
    cases scrape_page_step env n with
    | raised msg => simp [hx]
    | stop => simp [hx]
    | cont recs => exact ih _ x (by simp [hx])

/-- The head of the remaining page list is always attempted. -/
theorem mem_scrape_pages_attempted_head (env : Env) (n : Nat) (ns : List Nat)
    (st : ScrapeState) : n ∈ (scrape_pages env (n :: ns) st).attempted := by
  simp only [scrape_pages]
  cases scrape_page_step env n with
  | raised msg => simp
  | stop => simp
  | cont recs => exact scrape_pages_attempted_mono env ns _ n (by simp)

/-- Running the loop across a block of pages that all continue: their
records are appended, they are all marked attempted, and no error arises
from them. -/
theorem scrape_pages_cont_range (env : Env) :
    ∀ (m s : Nat) (rest : List Nat) (st : ScrapeState),
      (∀ j ∈ List.range' s m, (scrape_page_step env j).isCont = true) →
      scrape_pages env (List.range' s m ++ rest) st =
        scrape_pages env rest
          { books := st.books ++
              (List.range' s m).flatMap (fun j => (scrape_page_step env j).recsOf),
            attempted := st.attempted ++ List.range' s m,
            err := st.err } := by
  intro m
  induction m with
  | zero =>
    intro s rest st _
    simp [List.range']
  | succ k ih =>
    intro s rest st h
    have hs : (scrape_page_step env s).isCont = true := h s (by simp [List.range'])
    have hrange : List.range' s (k + 1) = s :: List.range' (s + 1) k := rfl
    cases hstep : scrape_page_step env s with
    | raised msg => rw [hstep] at hs; exact absurd hs (by simp [PageStep.isCont])
    | stop => rw [hstep] at hs; exact absurd hs (by simp [PageStep.isCont])
    | cont recs =>
      rw [hrange]
      show scrape_pages env (s :: (List.range' (s + 1) k ++ rest)) st = _
      simp only [scrape_pages, hstep]
      rw [ih (s + 1) rest _ (fun j hj => h j (by rw [hrange]; exact List.mem_cons_of_mem _ hj))]
      simp [hstep, PageStep.recsOf, List.flatMap_cons, List.append_assoc]

/-- The loop's observable control flow is the same in both `run` branches. -/
theorem run_attempted (env : Env) (s e : Nat) :
    (run env s e).attempted = (scrape_multiple_pages env s e).attempted := by
  unfold run
  cases h : (scrape_multiple_pages env s e).err <;> simp [h]

/-- When no exception escaped the scraping, `run` invokes both writers and
releases the driver. -/
theorem run_ok (env : Env) (s e : Nat) (h : (scrape_multiple_pages env s e).err = none) :
    run env s e =
      { books := (scrape_multiple_pages env s e).books,
        attempted := (scrape_multiple_pages env s e).attempted,
        csvInvoked := true, jsonInvoked := true,
        csvFile := some (save_to_csv (scrape_multiple_pages env s e).books),
        jsonFile := some (save_to_json (scrape_multiple_pages env s e).books),
        errorLogged := false, driverQuit := true } := by
  unfold run
  simp [h]

/-- When an exception escaped the scraping, `run` logs it, skips both
writers, and still releases the driver. -/
theorem run_err (env : Env) (s e : Nat) {msg : String}
    (h : (scrape_multiple_pages env s e).err = some msg) :
    run env s e =
      { books := (scrape_multiple_pages env s e).books,
        attempted := (scrape_multiple_pages env s e).attempted,
        csvInvoked := false, jsonInvoked := false,
        csvFile := none, jsonFile := none,
        errorLogged := true, driverQuit := true } := by
  unfold run
  simp [h]

/-! ### The claims -/

/-- Claim C1, counterexample: when the markup parser raises while scraping
page 1 (an unexpected error inside the scraping phase), the writers are NOT
invoked — the `save_to_csv()`/`save_to_json()` calls sit inside the `try`
after the scraping call, so the exception jumps over them into the
`except`; only the driver release in `finally` is guaranteed. This refutes
the claim that both writers run on every run regardless of a raise. -/
theorem C1_counterexample :
    ¬ ((run envRaise 1 2).csvInvoked = true ∧ (run envRaise 1 2).jsonInvoked = true ∧
        (run envRaise 1 2).driverQuit = true) := by
  decide

/-- Claim C1, amended: on every run the browser session is released; when no
unexpected error escapes the scraping (completed fully or stopped early),
both writers are invoked on the accumulated result set; when an unexpected
error is raised during scraping, the failure is logged and both writers are
skipped, with only the release still executing. -/
theorem C1_amended (env : Env) (s e : Nat) :
    (run env s e).driverQuit = true ∧
    ((scrape_multiple_pages env s e).err = none →
      (run env s e).csvInvoked = true ∧ (run env s e).jsonInvoked = true ∧
      (run env s e).csvFile = some (save_to_csv (run env s e).books) ∧
      (run env s e).jsonFile = some (save_to_json (run env s e).books)) ∧
    (∀ msg, (scrape_multiple_pages env s e).err = some msg →
      (run env s e).csvInvoked = false ∧ (run env s e).jsonInvoked = false ∧
      (run env s e).errorLogged = true) := by
  refine ⟨?_, ?_, ?_⟩
  · cases h : (scrape_multiple_pages env s e).err
    · rw [run_ok env s e h]
    · rw [run_err env s e h]
  · intro h
    rw [run_ok env s e h]
    exact ⟨rfl, rfl, rfl, rfl⟩
  · intro msg h
    rw [run_err env s e h]
    exact ⟨rfl, rfl, rfl⟩

/-- Witness for C1's amended theorem: a run that stops early still invokes
the tabular writer and releases the driver; a run whose page-1 markup parse
raises logs the failure. -/
theorem C1_witness :
    (run envStop 1 5).driverQuit = true ∧ (run envStop 1 5).csvInvoked = true ∧
    (run envRaise 1 2).errorLogged = true :=
  ⟨(C1_amended envStop 1 5).1,
   ((C1_amended envStop 1 5).2.1 (by decide)).1,
   ((C1_amended envRaise 1 2).2.2 "FeatureNotFound: lxml" (by decide)).2.2⟩

/-- Claim C3, counterexample: invoking the tabular writer with an empty
result set does NOT leave an existing file at the output path unchanged —
the file is opened with mode `"w"` (truncating it) before the emptiness
check, so the pre-existing content is replaced by an empty file. -/
theorem C3_counterexample :
    save_to_csv_fs [] (some prevCsv) = some CsvFile.truncated ∧
    save_to_csv_fs [] (some prevCsv) ≠ some prevCsv := by
  exact ⟨rfl, by decide⟩

/-- Claim C3, amended: with an empty result set the tabular writer logs a
warning and writes no header and no rows, but because the output file is
opened for writing before the emptiness check, whatever file existed at the
output path is truncated to empty rather than left unchanged. -/
theorem C3_amended (prev : Option CsvFile) :
    save_to_csv_warn [] = true ∧
    save_to_csv [] = CsvFile.truncated ∧
    (save_to_csv []).headerOf = [] ∧
    (save_to_csv []).rowsOf = [] ∧
    save_to_csv_fs [] prev = some CsvFile.truncated :=
  ⟨rfl, rfl, rfl, rfl, rfl⟩

/-- Witness for C3's amended theorem at a concrete pre-existing file. -/
theorem C3_witness :
    save_to_csv_warn [] = true ∧
    save_to_csv_fs [] (some prevCsv) = some CsvFile.truncated :=
  ⟨(C3_amended (some prevCsv)).1, (C3_amended (some prevCsv)).2.2.2.2⟩

/-- Claim C4, counterexample: when a later record has keys outside the first
record's key set, its extra fields are NOT silently dropped with the rest of
the row still written — `csv.DictWriter` (default `extrasaction='raise'`)
raises `ValueError` on that row, `save_to_csv` catches and logs it, and the
offending record's row (and everything after it) is missing: two records
yield one row and an incomplete write. -/
theorem C4_counterexample :
    save_to_csv [recPlain, recFull] =
      CsvFile.content ["title", "price", "availability", "rating", "url"]
        [[JValue.str "A", JValue.num ⟨10, 0⟩, JValue.str "In stock", JValue.str "Three",
          JValue.str "u1"]] false ∧
    (save_to_csv [recPlain, recFull]).rowsOf.length = 1 ∧
    (save_to_csv [recPlain, recFull]).completeOf = false := by
  exact ⟨by decide, by decide, by decide⟩

/-- Claim C4, amended: for a non-empty result set the header is the first
record's key list; when every record's keys lie in the first record's key
set, one data row is written per record, in order, with missing optional
fields rendered as empty cells; but a record with a key outside the first
record's key set makes the dict-writer raise (caught and logged), so that
record's row and all later rows are not written and the output is
incomplete — extra fields are not silently dropped. -/
theorem C4_amended :
    (∀ (b : BookRecord) (bs : List BookRecord),
      (∀ r ∈ b :: bs, ∀ kv ∈ r.toDict, kv.1 ∈ b.toDict.map Prod.fst) →
      save_to_csv (b :: bs) =
        CsvFile.content (b.toDict.map Prod.fst)
          ((b :: bs).map (fun r =>
            (b.toDict.map Prod.fst).map (fun k => (r.toDict.lookup k).getD (JValue.str ""))))
          true) ∧
    (∀ (b : BookRecord) (bs : List BookRecord),
      (∃ r ∈ b :: bs, ∃ kv ∈ r.toDict, kv.1 ∉ b.toDict.map Prod.fst) →
      (save_to_csv (b :: bs)).completeOf = false) := by
  constructor
  · intro b bs h
    have hall : ∀ d ∈ (b :: bs).map BookRecord.toDict, ∀ kv ∈ d,
        kv.1 ∈ b.toDict.map Prod.fst := by
      intro d hd
      rcases List.mem_map.mp hd with ⟨r, hr, rfl⟩
      exact h r hr
    have hw := writeRows_all (b.toDict.map Prod.fst) ((b :: bs).map BookRecord.toDict) hall
    simp only [save_to_csv, hw, List.map_map]
    rfl
  · intro b bs h
    rcases h with ⟨r, hr, kv, hkv, hnot⟩
    rw [Bool.eq_false_iff]
    intro hc
    have hcomplete :
        (writeRows (b.toDict.map Prod.fst) ((b :: bs).map BookRecord.toDict)).2 = true := by
      simpa [save_to_csv, CsvFile.completeOf] using hc
    exact hnot
      (writeRows_complete _ _ hcomplete r.toDict (List.mem_map_of_mem _ hr) kv hkv)

/-- Witness for C4's amended theorem: a first record with detail keys and a
later record without them writes both rows (missing keys as empty cells); a
plain first record followed by a detail-bearing record leaves the write
incomplete. -/
theorem C4_witness :
    save_to_csv [recFull, recPlain] =
      CsvFile.content (recFull.toDict.map Prod.fst)
        ([recFull, recPlain].map (fun r =>
          (recFull.toDict.map Prod.fst).map (fun k => (r.toDict.lookup k).getD (JValue.str ""))))
        true ∧
    (save_to_csv [recPlain, recFull]).completeOf = false :=
  ⟨C4_amended.1 recFull [recPlain] (by decide),
   C4_amended.2 recPlain [recFull]
     ⟨recFull, by decide, ("description", JValue.str "d"), by decide, by decide⟩⟩

/-- Claim C5, counterexample: the code does not enforce the non-negativity
invariant on parsed prices — a block whose price text is `"-£5.00"` is
accepted by the sanitise-then-`float` pipeline and stored with the negative
price `-5`, so "every parsed price satisfies the non-negativity invariant"
fails. -/
theorem C5_counterexample :
    (extractBook envStop blockNeg).map BookRecord.price = some ⟨-500, 2⟩ ∧
    (PyFloat.mk (-500) 2).toRat < 0 := by
  refine ⟨by decide, ?_⟩
  unfold PyFloat.toRat
  norm_num

/-- Claim C5, amended: price parsing maps `"£51.77"` — also with the stray
mis-decoded `Â` artifact — to the decimal `51.77`; a parsed price is
non-negative whenever the sanitised price text contains no minus sign (the
code does not itself enforce non-negativity); and an item whose price text
is malformed is skipped alone, the other items of the page still being
processed. -/
theorem C5_amended :
    parsePrice "£51.77" = some ⟨5177, 2⟩ ∧
    parsePrice "Â£51.77" = some ⟨5177, 2⟩ ∧
    (PyFloat.mk 5177 2).toRat = (5177 / 100 : ℚ) ∧
    (∀ (raw : String) (p : PyFloat), '-' ∉ (cleanPrice raw).toList →
      parsePrice raw = some p → 0 ≤ p.toRat) ∧
    (∀ (env : Env) (b : BookBlock) (pre post : List BookBlock),
      extractBook env b = none →
      (pre ++ b :: post).filterMap (extractBook env) =
        pre.filterMap (extractBook env) ++ post.filterMap (extractBook env)) ∧
    (∀ (env : Env) (b : BookBlock) (s : String),
      b.priceText = some s → parsePrice (pyStrip s) = none →
      extractBook env b = none) := by
  refine ⟨by decide, by decide, ?_, ?_, ?_, ?_⟩
  · unfold PyFloat.toRat
    norm_num
  · intro raw p hm hp
    exact parseFloat_nonneg hm hp
  · intro env b pre post h
    simp [List.filterMap_append, List.filterMap_cons, h]
  · intro env b s hps hparse
    simp only [extractBook, hps, hparse, Option.some_bind, Option.none_bind]
    cases b.title <;> simp

/-- Witness for C5's amended theorem: the good price is non-negative, a
page with a malformed-price block keeps its other items, and `badBlock`'s
price text makes its extraction fail. -/
theorem C5_witness :
    (0 : ℚ) ≤ (PyFloat.mk 5177 2).toRat ∧
    ([goodBlock] ++ badBlock :: [goodBlock]).filterMap (extractBook envStop) =
      [goodBlock].filterMap (extractBook envStop) ++
        [goodBlock].filterMap (extractBook envStop) ∧
    extractBook envStop badBlock = none :=
  ⟨C5_amended.2.2.2.1 "£51.77" ⟨5177, 2⟩ (by decide) (by decide),
   C5_amended.2.2.2.2.1 envStop badBlock [goodBlock] [goodBlock] (by decide),
   C5_amended.2.2.2.2.2 envStop badBlock "£abc" (by decide) (by decide)⟩

/-- Claim C6 (confirmed): the page fetch never raises to its caller — it is
a total function into an optional result; when navigation throws or the
readiness marker never appears within the bounded wait, the caller receives
the sentinel `none` (the failure having been logged), and otherwise the
rendered markup is returned. -/
theorem C6_theorem (env : Env) (url : String) :
    (get_page env url = none ↔
      env.fetch url = FetchOutcome.navError ∨ env.fetch url = FetchOutcome.timeout) ∧
    (∀ m, env.fetch url = FetchOutcome.markup m → get_page env url = some m) := by
  constructor
  · unfold get_page
    cases env.fetch url <;> simp
  · intro m hm
    unfold get_page
    rw [hm]

/-- Witness for C6: a URL whose navigation errors yields the sentinel, and
a URL that renders yields its markup. -/
theorem C6_witness :
    get_page envStop (pageUrl 2) = none ∧
    get_page envStop (pageUrl 1) = some (Markup.doc [goodBlock]) :=
  ⟨(C6_theorem envStop (pageUrl 2)).1.mpr (Or.inl (by decide)),
   (C6_theorem envStop (pageUrl 1)).2 (Markup.doc [goodBlock]) (by decide)⟩

/-- Claim C9 (confirmed): the structured-document writer serialises the
entire result set — every record with exactly the keys it carries,
heterogeneous optional fields included — with `indent=4` and
`ensure_ascii=False`, so non-ASCII characters pass through the string
escaper literally; the empty result set still writes the empty array
marker `[]`. -/
theorem C9_theorem :
    (∀ books : List BookRecord,
      (save_to_json books).value = books.map BookRecord.toDict ∧
      (save_to_json books).indent = 4 ∧ (save_to_json books).ensureAscii = false) ∧
    save_to_json_file [] = "[]" ∧
    (∀ c : Char, 126 < c.toNat → escapeJsonChar false c = [c]) :=
  ⟨fun _ => ⟨rfl, rfl, rfl⟩, rfl, fun c h => escapeJsonChar_nonascii c h⟩

/-- Witness for C9: the pound sign (a non-ASCII character appearing in the
scraped tax strings) passes through the escaper unescaped. -/
theorem C9_witness : escapeJsonChar false '£' = ['£'] :=
  C9_theorem.2.2 '£' (by decide)

/-- Claim C2 (confirmed): if page `N`'s fetch fails or page `N` yields zero
item summary blocks — the pages before it having been scraped normally —
then no page numbered above `N` is attempted in the run, and the records
collected from the pages before `N` are still passed to both persistence
writers. -/
theorem C2_theorem (env : Env) (s e N : Nat) (hsN : s ≤ N) (hNe : N ≤ e)
    (hstop : get_page env (pageUrl N) = none ∨
             get_page env (pageUrl N) = some (Markup.doc []))
    (hcont : ∀ j, j < N → s ≤ j → (scrape_page_step env j).isCont = true) :
    (∀ m ∈ (run env s e).attempted, m ≤ N) ∧
    (run env s e).csvInvoked = true ∧ (run env s e).jsonInvoked = true ∧
    (run env s e).books =
      (List.range' s (N - s)).flatMap (fun j => (scrape_page_step env j).recsOf) ∧
    (run env s e).csvFile = some (save_to_csv (run env s e).books) ∧
    (run env s e).jsonFile = some (save_to_json (run env s e).books) := by
  have hstep : scrape_page_step env N = PageStep.stop := by
    rcases hstop with h1 | h1 <;> simp [scrape_page_step, h1]
  have hsplit : List.range' s (e + 1 - s) =
      List.range' s (N - s) ++ (N :: List.range' (N + 1) (e - N)) := by
    have h1 : e + 1 - s = (e + 1 - N) + (N - s) := by omega
    rw [h1, ← List.range'_append s (N - s) (e + 1 - N) 1]
    congr 1
    have h2 : s + 1 * (N - s) = N := by omega
    have h3 : e + 1 - N = (e - N) + 1 := by omega
    rw [h2, h3]
    rfl
  have hc : ∀ j ∈ List.range' s (N - s), (scrape_page_step env j).isCont = true := by
    intro j hj
    rw [List.mem_range'_1] at hj
    exact hcont j (by omega) hj.1
  have hmain : scrape_multiple_pages env s e =
      { books := (List.range' s (N - s)).flatMap (fun j => (scrape_page_step env j).recsOf),
        attempted := List.range' s (N - s) ++ [N],
        err := none } := by
    unfold scrape_multiple_pages
    rw [hsplit, scrape_pages_cont_range env (N - s) s _ _ hc]
    simp [scrape_pages, hstep]
  have herr : (scrape_multiple_pages env s e).err = none := by rw [hmain]
  rw [run_ok env s e herr, hmain]
  refine ⟨?_, rfl, rfl, rfl, rfl, rfl⟩
  intro m hm
  simp only [List.mem_append, List.mem_singleton] at hm
  rcases hm with hm | hm
  · rw [List.mem_range'_1] at hm
    omega
  · omega

/-- Witness for C2: page 1 scrapes normally, page 2's fetch fails, the
requested range runs to page 5; both writers still receive the page-1
records. -/
theorem C2_witness :
    (run envStop 1 5).csvInvoked = true ∧ (run envStop 1 5).jsonInvoked = true ∧
    (run envStop 1 5).csvFile = some (save_to_csv (run envStop 1 5).books) ∧
    (run envStop 1 5).jsonFile = some (save_to_json (run envStop 1 5).books) :=
  let h := C2_theorem envStop 1 5 2 (by decide) (by decide) (Or.inl (by decide)) (by decide)
  ⟨h.2.1, h.2.2.1, h.2.2.2.2.1, h.2.2.2.2.2⟩

/-- Claim C7, counterexample: when the detail page loads but the main
detail container is absent, the extractor returns the "no data" sentinel
WITHOUT logging — the `if not product_page: return None` branch precedes
any logging call, so "the extractor logs the failure" fails for that case
(logging happens only on the exception paths). -/
theorem C7_counterexample :
    scrape_book_details envDetail (pageUrl 9) = none ∧
    scrape_book_details_logs envDetail (pageUrl 9) = false := by
  exact ⟨by decide, by decide⟩

/-- Claim C7, amended: detail extraction fails only softly — it returns the
"no data" sentinel exactly when navigation fails, the wait times out, the
detail container is absent, or a labelled row / the meta description is
missing; the failure is logged in all of those cases except the
absent-container branch, which returns "no data" silently; and the item's
summary fields are still appended regardless: a successful extraction's
`details` field is exactly the detail extractor's result for the item's
URL, and replacing the detail extractor's behaviour never changes whether
an item is appended. -/
theorem C7_amended (env : Env) (url : String) :
    (scrape_book_details env url = none ↔
      env.detail url = DetailOutcome.navError ∨ env.detail url = DetailOutcome.timeout ∨
      env.detail url = DetailOutcome.loaded none ∨
      ∃ pp, env.detail url = DetailOutcome.loaded (some pp) ∧
        (pp.descriptionContent = none ∨ pp.upc = none ∨ pp.productType = none ∨
         pp.tax = none ∨ pp.reviews = none)) ∧
    (scrape_book_details_logs env url = true ↔
      env.detail url = DetailOutcome.navError ∨ env.detail url = DetailOutcome.timeout ∨
      ∃ pp, env.detail url = DetailOutcome.loaded (some pp) ∧
        (pp.descriptionContent = none ∨ pp.upc = none ∨ pp.productType = none ∨
         pp.tax = none ∨ pp.reviews = none)) ∧
    (∀ (b : BookBlock) (r : BookRecord), extractBook env b = some r →
      r.details = scrape_book_details env r.url) ∧
    (∀ (b : BookBlock) (d : String → DetailOutcome),
      (extractBook { env with detail := d } b).isSome = (extractBook env b).isSome) := by
  refine ⟨?_, ?_, ?_, ?_⟩
  · cases h : env.detail url with
    | navError => simp [scrape_book_details, h]
    | timeout => simp [scrape_book_details, h]
    | loaded c =>
      cases c with
      | none => simp [scrape_book_details, h]
      | some pp =>
        rcases pp with ⟨d1, d2, d3, d4, d5⟩
        cases d1 <;> cases d2 <;> cases d3 <;> cases d4 <;> cases d5 <;>
          simp [scrape_book_details, h]
  · cases h : env.detail url with
    | navError => simp [scrape_book_details_logs, h]
    | timeout => simp [scrape_book_details_logs, h]
    | loaded c =>
      cases c with
      | none => simp [scrape_book_details_logs, h]
      | some pp =>
        rcases pp with ⟨d1, d2, d3, d4, d5⟩
        cases d1 <;> cases d2 <;> cases d3 <;> cases d4 <;> cases d5 <;>
          simp [scrape_book_details_logs, h]
  · intro b r h
    rw [extractBook_eq] at h
    rcases Option.map_eq_some'.mp h with ⟨r0, _, rfl⟩
    rfl
  · intro b d
    rw [extractBook_eq, extractBook_eq]
    cases extractSummary b <;> simp

/-- Witness for C7's amended theorem: a timed-out detail page yields the
sentinel; `goodRec`'s `details` field agrees with the detail extractor at
its URL; and swapping in a detail extractor that succeeds does not change
whether `goodBlock`'s item is appended. -/
theorem C7_witness :
    scrape_book_details envStop (pageUrl 3) = none ∧
    goodRec.details = scrape_book_details envStop goodRec.url ∧
    (extractBook { envStop with detail := envDetail.detail } goodBlock).isSome =
      (extractBook envStop goodBlock).isSome :=
  ⟨(C7_amended envStop (pageUrl 3)).1.mpr (Or.inl (by decide)),
   (C7_amended envStop (pageUrl 3)).2.2.1 goodBlock goodRec (by decide),
   (C7_amended envStop (pageUrl 3)).2.2.2 goodBlock envDetail.detail⟩

/-- Claim C8 (confirmed): on a fetched listing page with at least one item
summary block, per-item failures are isolated — the page completes with the
successfully extracted records (it is never aborted by a bad item), and the
number of records appended equals the number of blocks minus the number of
blocks whose required-field extraction fails. -/
theorem C8_theorem (env : Env) (n : Nat) (bs : List BookBlock)
    (h : get_page env (pageUrl n) = some (Markup.doc bs)) (hne : bs ≠ []) :
    scrape_page_step env n = PageStep.cont (bs.filterMap (extractBook env)) ∧
    (bs.filterMap (extractBook env)).length =
      bs.length - bs.countP (fun b => (extractBook env b).isNone) := by
  constructor
  · obtain ⟨x, t, rfl⟩ := List.exists_cons_of_ne_nil hne
    simp [scrape_page_step, h]
  · exact length_filterMap_eq _ _

/-- Witness for C8: a page with one good and one bad block appends exactly
one record (2 blocks − 1 unparseable block). -/
theorem C8_witness :
    scrape_page_step envOneBad 1 =
      PageStep.cont ([goodBlock, badBlock].filterMap (extractBook envOneBad)) ∧
    ([goodBlock, badBlock].filterMap (extractBook envOneBad)).length =
      [goodBlock, badBlock].length -
        [goodBlock, badBlock].countP (fun b => (extractBook envOneBad b).isNone) :=
  C8_theorem envOneBad 1 [goodBlock, badBlock] (by decide) (by decide)

/-- Claim C10 (confirmed): the page scrape reports a stop exactly when the
fetch failed or the page had zero item summary blocks — never because zero
records were successfully extracted; with at least one block it reports
success carrying whatever records survived (possibly none), and the
controller then proceeds to attempt the next page of the range. -/
theorem C10_theorem (env : Env) (n : Nat) :
    ((scrape_page_step env n).isStop = true ↔
      get_page env (pageUrl n) = none ∨
      get_page env (pageUrl n) = some (Markup.doc [])) ∧
    (∀ bs, get_page env (pageUrl n) = some (Markup.doc bs) → bs ≠ [] →
      scrape_page_step env n = PageStep.cont (bs.filterMap (extractBook env))) ∧
    (∀ s e, s ≤ n → n < e →
      (∀ j, j < n → s ≤ j → (scrape_page_step env j).isCont = true) →
      (scrape_page_step env n).isCont = true →
      (n + 1) ∈ (run env s e).attempted) := by
  refine ⟨?_, ?_, ?_⟩
  · cases hg : get_page env (pageUrl n) with
    | none => simp [scrape_page_step, hg, PageStep.isStop]
    | some m =>
      cases m with
      | parseError msg => simp [scrape_page_step, hg, PageStep.isStop]
      | doc bs =>
        cases bs with
        | nil => simp [scrape_page_step, hg, PageStep.isStop]
        | cons x t => simp [scrape_page_step, hg, PageStep.isStop]
  · intro bs hg hne
    obtain ⟨x, t, rfl⟩ := List.exists_cons_of_ne_nil hne
    simp [scrape_page_step, hg]
  · intro s e hsn hne hcont hn
    have hc : ∀ j ∈ List.range' s (n + 1 - s), (scrape_page_step env j).isCont = true := by
      intro j hj
      rw [List.mem_range'_1] at hj
      rcases Nat.lt_or_ge j n with hlt | hge
      · exact hcont j hlt hj.1
      · have hje : j = n := by omega
        rw [hje]
        exact hn
    have hsplit : List.range' s (e + 1 - s) =
        List.range' s (n + 1 - s) ++ ((n + 1) :: List.range' (n + 2) (e - n - 1)) := by
      have h1 : e + 1 - s = (e - n) + (n + 1 - s) := by omega
      rw [h1, ← List.range'_append s (n + 1 - s) (e - n) 1]
      congr 1
      have h2 : s + 1 * (n + 1 - s) = n + 1 := by omega
      have h3 : e - n = (e - n - 1) + 1 := by omega
      rw [h2]
      nth_rewrite 1 [h3]
      rfl
    rw [run_attempted]
    unfold scrape_multiple_pages
    rw [hsplit, scrape_pages_cont_range env (n + 1 - s) s _ _ hc]
    exact mem_scrape_pages_attempted_head env (n + 1) _ _

/-- Witness for C10: page 1 consists of one block whose extraction fails —
the step still reports success with zero records, and page 2 is attempted. -/
theorem C10_witness :
    scrape_page_step envAllBad 1 =
      PageStep.cont ([badBlock].filterMap (extractBook envAllBad)) ∧
    (1 + 1) ∈ (run envAllBad 1 5).attempted ∧
    [badBlock].filterMap (extractBook envAllBad) = [] :=
  let h := C10_theorem envAllBad 1
  ⟨h.2.1 [badBlock] (by decide) (by decide),
   h.2.2 1 5 (by decide) (by decide) (by decide) (by decide),
   by decide⟩

end Scraper
